import Mathlib

/-!
Shallow embedding of the rusty-gate proxy (src/config.rs and src/main.rs).

Strings are Lean `String` (a wrapper around `List Char`); Rust's byte-wise
string operations on valid UTF-8 coincide with character-wise operations,
since UTF-8 is self-synchronizing.  External collaborators (the `http` URI
parser, the hyper HTTP client, TCP sockets) are modelled as oracles passed
in as function arguments: the embedding computes exactly what the source
does with the oracle results.
-/

/-- Model of Rust `str::ends_with` (byte-wise suffix check, no
normalization, no case folding), as used by `Config::is_ton_domain`. -/
def str_ends_with (h s : String) : Bool := s.data.isSuffixOf h.data

/-- Model of `Config` from src/config.rs: suffix list, gateway base URL,
verbosity flag. -/
structure Config where
  ton_domains : List String
  ton_gateway : String
  verbose_logging : Bool

/-- Model of `Config::default()` from src/config.rs. -/
def Config.default_config : Config :=
  { ton_domains := ["ton", "t.me"]
  , ton_gateway := "https://gateway.ton.org"
  , verbose_logging := false }

/-- Model of `Config::is_ton_domain` from src/config.rs:
`self.ton_domains.iter().any(|d| domain.ends_with(d))`. -/
def Config.is_ton_domain (c : Config) (domain : String) : Bool :=
  c.ton_domains.any (fun d => str_ends_with domain d)

/-- Model of `http::Uri` as its observable components used by the proxy:
`uri.scheme()`, `uri.authority()`, `uri.host()`, `uri.path()`, `uri.query()`. -/
structure Uri where
  scheme : Option String
  authority : Option String
  host : Option String
  path : String
  query : Option String
deriving DecidableEq

/-- Model of Rust `str::trim_end_matches('/')`: removes every trailing
slash, as in `gateway.trim_end_matches('/')` in `rewrite_ton_uri`. -/
def trim_end_slashes (s : String) : String :=
  String.mk ((s.data.reverse.dropWhile (fun c => c == '/')).reverse)

/-- The string composed by `rewrite_ton_uri` in src/main.rs before parsing:
`format!("{}/{}{}{}", gateway.trim_end_matches('/'), host, path, query)`
where `host = uri.host().unwrap_or("")` and `query` is `"?" + q` when a
query is present and empty otherwise. -/
def rewrite_uri_string (uri : Uri) (gateway : String) : String :=
  trim_end_slashes gateway ++ "/" ++ uri.host.getD "" ++ uri.path ++
    (match uri.query with
     | some q => "?" ++ q
     | none => "")

/-- Model of `rewrite_ton_uri` from src/main.rs.  The final
`new_uri_str.parse::<Uri>()` step is the external `http` crate parser,
passed in as the oracle `parseUri`; on parse failure the function fails with
the context message attached by `.context(...)` in the source. -/
def rewrite_ton_uri (parseUri : String → Option Uri) (uri : Uri)
    (gateway : String) : Except String Uri :=
  match parseUri (rewrite_uri_string uri gateway) with
  | some u => Except.ok u
  | none => Except.error
      ("Failed to parse rewritten URI: " ++ rewrite_uri_string uri gateway)

/-- Model of the request method: the dispatcher in `handle_request` only
distinguishes CONNECT from everything else. -/
inductive Method where
  | CONNECT : Method
  | other : String → Method
deriving DecidableEq

/-- Model of `http::Request<Body>`: method, target URI, header list and an
opaque body byte stream. -/
structure HttpRequest where
  method : Method
  uri : Uri
  headers : List (String × String)
  body : List (UInt8)
deriving DecidableEq

/-- Model of `http::Response<Body>`: status code, header list, body text. -/
structure HttpResponse where
  status : Nat
  headers : List (String × String)
  body : String
deriving DecidableEq

/-- Synthetic 502 Bad Gateway response (`StatusCode::BAD_GATEWAY`) with a
plain-text body, as built at each failure site in src/main.rs. -/
def resp502 (body : String) : HttpResponse :=
  { status := 502, headers := [], body := body }

/-- Model of `proxy_internal` from src/main.rs.  The shared hyper client is
the oracle `client`; its `Option`-free result is `Except.ok response` or
`Except.error e` for a transport failure.  The instrumented return value
pairs the response with the outbound request actually handed to the client,
so that forwarding behaviour is observable; the only path that sends
nothing is the rewrite failure, which propagates as `Except.error` exactly
as the `?` operator does in the source. -/
def proxy_internal (cfg : Config) (parseUri : String → Option Uri)
    (client : HttpRequest → Except String HttpResponse)
    (req : HttpRequest) : Except String (HttpResponse × HttpRequest) :=
  let host := req.uri.host.getD ""
  if cfg.is_ton_domain host then
    match rewrite_ton_uri parseUri req.uri cfg.ton_gateway with
    | Except.error e => Except.error e
    | Except.ok newUri =>
      let newReq : HttpRequest := { req with uri := newUri }
      match client newReq with
      | Except.ok response => Except.ok (response, newReq)
      | Except.error e =>
          Except.ok (resp502 ("Failed to connect to TON gateway: " ++ e), newReq)
  else
    match client req with
    | Except.ok response => Except.ok (response, req)
    | Except.error e =>
        Except.ok (resp502 ("Failed to connect to target server: " ++ e), req)

/-- Model of `proxy` from src/main.rs: wraps `proxy_internal`, converting a
propagated error into a 502 response with body `"Proxy error: " ++ e`
(`format!("Proxy error: {}", e)`); its Rust error type is `Infallible`, so
the model returns a plain response. -/
def proxy (cfg : Config) (parseUri : String → Option Uri)
    (client : HttpRequest → Except String HttpResponse)
    (req : HttpRequest) : HttpResponse :=
  match proxy_internal cfg parseUri client req with
  | Except.ok (response, _) => response
  | Except.error e => resp502 ("Proxy error: " ++ e)

/-- Result of `handle_connect` from src/main.rs when the authority is
present: the `200 OK` empty-body response returned to hyper, plus the
address captured by the detached tunnel task spawned before returning. -/
structure ConnectAccepted where
  response : HttpResponse
  tunnel_addr : String
deriving DecidableEq

/-- Model of `handle_connect` from src/main.rs: fails when the request URI
has no authority; otherwise builds the `StatusCode::OK` empty response and
spawns the tunnel task, then returns the response.  Note the response is
produced before the spawned task dials anything. -/
def handle_connect (req : HttpRequest) : Except String ConnectAccepted :=
  match req.uri.authority with
  | none => Except.error "CONNECT request missing authority"
  | some addr =>
      Except.ok { response := { status := 200, headers := [], body := "" }
                , tunnel_addr := addr }

/-- Model of `handle_request` from src/main.rs.  Its Rust signature is
`Result<Response<Body>, Infallible>`; `Empty` plays the role of
`Infallible`, so a returned `Except.error` is impossible by type. -/
def handle_request (cfg : Config) (parseUri : String → Option Uri)
    (client : HttpRequest → Except String HttpResponse)
    (req : HttpRequest) : Except Empty HttpResponse :=
  match req.method with
  | Method.CONNECT =>
    match handle_connect req with
    | Except.ok accepted => Except.ok accepted.response
    | Except.error e => Except.ok (resp502 ("CONNECT error: " ++ e))
  | Method.other _ => Except.ok (proxy cfg parseUri client req)

/-- Fixed relay buffer size: `let mut buffer = [0; 8192]` in `tunnel`. -/
def BUFFER_SIZE : Nat := 8192

/-- Primitive I/O outcomes driving one relay loop of `tunnel`, in program
order.  Each event is the result of one loop iteration's `read` (and, for a
successful non-empty read, of the following `write_all`):
`chunk bs` is `read = Ok(n > 0)` with a successful `write_all` of exactly
those bytes; `writeFail bs e` is a successful read whose `write_all` fails;
`readFail e` is `read = Err(e)`; `eof` is `read = Ok(0)`. -/
inductive RelayEvent where
  | chunk : List UInt8 → RelayEvent
  | writeFail : List UInt8 → String → RelayEvent
  | readFail : String → RelayEvent
  | eof : RelayEvent
deriving DecidableEq

/-- Outcome of one relay loop: `done` for a clean half-close path, `fail`
for an `Err` propagated by `?`, `pending` when the supplied event list ran
out before the loop terminated (the real loop would still be blocked in
`read`). -/
inductive LoopOutcome where
  | done : LoopOutcome
  | fail : String → LoopOutcome
  | pending : LoopOutcome
deriving DecidableEq

/-- Observable trace of one relay loop: the byte chunks actually delivered
to the peer via `write_all`, whether `shutdown()` of the peer's write half
was invoked, and how the loop ended. -/
structure RelayTrace where
  writes : List (List UInt8)
  shutdownIssued : Bool
  outcome : LoopOutcome
deriving DecidableEq

/-- Model of one relay loop of `tunnel` from src/main.rs:

  loop { let n = read()?; if n == 0 { break; } write_all(buf[0:n])?; }
  shutdown()?; Ok(())

`sd` is the oracle result of the final `shutdown()` call.  After `eof` the
loop stops reading, so later events are ignored; after an error the loop
ends at once and no shutdown is attempted. -/
def relayDir : List RelayEvent → Except String Unit → RelayTrace
  | [], _ => { writes := [], shutdownIssued := false, outcome := LoopOutcome.pending }
  | RelayEvent.chunk bs :: rest, sd =>
      let t := relayDir rest sd
      { t with writes := bs :: t.writes }
  | RelayEvent.writeFail _ e :: _, _ =>
      { writes := [], shutdownIssued := false, outcome := LoopOutcome.fail e }
  | RelayEvent.readFail e :: _, _ =>
      { writes := [], shutdownIssued := false, outcome := LoopOutcome.fail e }
  | RelayEvent.eof :: _, sd =>
      { writes := [], shutdownIssued := true
      , outcome := match sd with
                   | Except.ok _ => LoopOutcome.done
                   | Except.error e => LoopOutcome.fail e }

/-- Model of the tail of `tunnel`:
`let (client_result, server_result) = tokio::join!(...); client_result?;
server_result?; Ok(())`.  `tokio::join!` completes only when both futures
have completed, so the joined session result is `none` while either loop is
still pending; once both are done the client→server error (if any) is
reported first, otherwise the server→client one. -/
def join_results : LoopOutcome → LoopOutcome → Option (Except String Unit)
  | LoopOutcome.pending, _ => none
  | _, LoopOutcome.pending => none
  | LoopOutcome.fail e, _ => some (Except.error e)
  | LoopOutcome.done, LoopOutcome.fail e => some (Except.error e)
  | LoopOutcome.done, LoopOutcome.done => some (Except.ok ())

deriving instance DecidableEq for Except

/-- Observable run of one `tunnel` invocation: bytes relayed in each
direction, the half-closes issued, whether the dial succeeded (the
Tunneling state of the session was entered), and the session result —
`none` meaning the session has not concluded. -/
structure TunnelRun where
  toServer : List (List UInt8)
  toClient : List (List UInt8)
  shutdownServerWrite : Bool
  shutdownClientWrite : Bool
  entered : Bool
  result : Option (Except String Unit)
deriving DecidableEq

/-- Model of `tunnel` from src/main.rs.  `dial` is the oracle result of
`TcpStream::connect(addr)`: on failure the `?` operator returns the error
before any relaying, so the Tunneling state is never entered.  On success
the two relay loops run concurrently, each driven only by its own I/O
events (`ev1`/`sd1` for client→server, `ev2`/`sd2` for server→client), and
are joined. -/
def tunnel (dial : Except String Unit)
    (ev1 : List RelayEvent) (sd1 : Except String Unit)
    (ev2 : List RelayEvent) (sd2 : Except String Unit) : TunnelRun :=
  match dial with
  | Except.error e =>
      { toServer := [], toClient := []
      , shutdownServerWrite := false, shutdownClientWrite := false
      , entered := false, result := some (Except.error e) }
  | Except.ok _ =>
      let t1 := relayDir ev1 sd1
      let t2 := relayDir ev2 sd2
      { toServer := t1.writes, toClient := t2.writes
      , shutdownServerWrite := t1.shutdownIssued
      , shutdownClientWrite := t2.shutdownIssued
      , entered := true
      , result := join_results t1.outcome t2.outcome }

/-- Observable view of one whole CONNECT session: the HTTP response the
client receives from `handle_request`'s CONNECT arm, and the run of the
detached tunnel task (`none` when no tunnel ran because the authority was
missing or `hyper::upgrade::on` failed, in which case the error is only
logged). -/
structure SessionView where
  clientResponse : HttpResponse
  tunnelRun : Option TunnelRun
deriving DecidableEq

/-- Model of the CONNECT path of `handle_request` together with the task
spawned by `handle_connect`: the response comes from `handle_connect`
alone; the spawned task first awaits the upgrade (oracle `upg`), then runs
`tunnel` with the dial oracle and the relay event streams. -/
def connect_session (req : HttpRequest)
    (upg : Except String Unit) (dial : Except String Unit)
    (ev1 : List RelayEvent) (sd1 : Except String Unit)
    (ev2 : List RelayEvent) (sd2 : Except String Unit) : SessionView :=
  match handle_connect req with
  | Except.error e =>
      { clientResponse := resp502 ("CONNECT error: " ++ e), tunnelRun := none }
  | Except.ok accepted =>
      { clientResponse := accepted.response
      , tunnelRun :=
          match upg with
          | Except.error _ => none
          | Except.ok _ => some (tunnel dial ev1 sd1 ev2 sd2) }

/-- Concrete URI used by the evaluation witnesses: host `h`, path "/p",
no query. -/
def uriFor (h : String) : Uri :=
  { scheme := some "http", authority := none, host := some h
  , path := "/p", query := none }

/-- Concrete non-CONNECT request to host `h` used by the witnesses. -/
def reqFor (h : String) : HttpRequest :=
  { method := Method.other "GET", uri := uriFor h
  , headers := [("accept", "text/html")], body := [7] }

/-- Concrete mocked upstream response used by the witnesses. -/
def respA : HttpResponse :=
  { status := 200, headers := [("server", "mock")], body := "hello" }

/-- Concrete client oracle that always succeeds with `respA`. -/
def clientA : HttpRequest → Except String HttpResponse :=
  fun _ => Except.ok respA

/-- Concrete URI parse oracle that accepts every string, storing it as the
path component. -/
def parse_as_path : String → Option Uri :=
  fun s => some { scheme := none, authority := none, host := none
                , path := s, query := none }

/-- Concrete URI parse oracle that rejects every string. -/
def parse_none : String → Option Uri := fun _ => none

/-- Concrete non-CONNECT request whose URI has no host component. -/
def reqNoHost : HttpRequest :=
  { method := Method.other "GET"
  , uri := { scheme := none, authority := none, host := none
           , path := "/p", query := none }
  , headers := [], body := [] }

/-- Concrete CONNECT request with authority "127.0.0.1:1". -/
def reqConnectEx : HttpRequest :=
  { method := Method.CONNECT
  , uri := { scheme := none, authority := some "127.0.0.1:1", host := none
           , path := "", query := none }
  , headers := [], body := [] }

/-- Concrete CONNECT request whose URI has no authority. -/
def reqConnectNoAuth : HttpRequest :=
  { method := Method.CONNECT
  , uri := { scheme := none, authority := none, host := none
           , path := "", query := none }
  , headers := [], body := [] }

/-- Helper: `str_ends_with` holds exactly when the needle is a byte-wise
suffix, i.e. the haystack decomposes as some string followed by the needle. -/
theorem str_ends_with_iff (h s : String) :
    str_ends_with h s = true ↔ ∃ p : String, h = p ++ s := by
  unfold str_ends_with
  rw [List.isSuffixOf_iff_suffix]
  constructor
  · rintro ⟨t, ht⟩
    refine ⟨String.mk t, ?_⟩
    apply String.ext
    exact ht.symm
  · rintro ⟨p, hp⟩
    exact ⟨p.data, by rw [hp]; rfl⟩

/-- Helper: the classifier is true exactly when some configured suffix is a
byte-wise suffix of the domain. -/
theorem is_ton_domain_iff (c : Config) (h : String) :
    c.is_ton_domain h = true ↔ ∃ s ∈ c.ton_domains, ∃ p : String, h = p ++ s := by
  unfold Config.is_ton_domain
  rw [List.any_eq_true]
  constructor
  · rintro ⟨s, hs, he⟩
    exact ⟨s, hs, (str_ends_with_iff h s).mp he⟩
  · rintro ⟨s, hs, hp⟩
    exact ⟨s, hs, (str_ends_with_iff h s).mpr hp⟩

/-- Helper: a configuration none of whose suffixes is the empty string
never classifies the empty host as a TON domain. -/
theorem is_ton_domain_empty_host (c : Config) (hne : "" ∉ c.ton_domains) :
    c.is_ton_domain "" = false := by
  rw [Bool.eq_false_iff]
  intro ht
  obtain ⟨s, hs, p, hp⟩ := (is_ton_domain_iff c "").mp ht
  have hdata : ([] : List Char) = p.data ++ s.data := congrArg String.data hp
  have hnil : s.data = [] := (List.append_eq_nil.mp hdata.symm).2
  have hse : s = "" := String.ext hnil
  exact hne (hse ▸ hs)

/-- Helper: appending one more trailing slash to the gateway base does not
change the trimmed gateway. -/
theorem trim_end_slashes_append_slash (s : String) :
    trim_end_slashes (s ++ "/") = trim_end_slashes s := by
  unfold trim_end_slashes
  have hdata : (s ++ "/").data = s.data ++ ['/'] := rfl
  rw [hdata, List.reverse_append]
  rfl

/-- C2 counterexample: the claim states that for the empty host the
classifier returns false for every suffix list, but with the suffix list
containing the empty string the code returns true on the empty host, since
`"".ends_with("")` holds. -/
theorem is_ton_domain_empty_host_counterexample :
    ({ ton_domains := [""], ton_gateway := "", verbose_logging := false }
      : Config).is_ton_domain "" = true := by decide

/-- C2 (amended): the classifier returns true iff some configured suffix is
a byte-wise suffix of the host (no normalization or case folding, so host
"evilton" matches suffix "ton"); for the empty suffix list it returns
false; and for the empty host it returns false provided the empty string is
not among the configured suffixes. -/
theorem is_ton_domain_spec (c : Config) (h : String) :
    (c.is_ton_domain h = true ↔ ∃ s ∈ c.ton_domains, ∃ p : String, h = p ++ s)
    ∧ ({ c with ton_domains := [] } : Config).is_ton_domain h = false
    ∧ ("" ∉ c.ton_domains → c.is_ton_domain "" = false) := by
  refine ⟨is_ton_domain_iff c h, rfl, ?_⟩
  intro hne
  rw [Bool.eq_false_iff]
  intro ht
  obtain ⟨s, hs, p, hp⟩ := (is_ton_domain_iff c "").mp ht
  have hdata : ([] : List Char) = p.data ++ s.data := congrArg String.data hp
  have hnil : s.data = [] := (List.append_eq_nil.mp hdata.symm).2
  have hse : s = "" := String.ext hnil
  exact hne (hse ▸ hs)

/-- C2 witness: with the default suffix list, host "evilton" matches (raw
suffix match on "ton"), the empty suffix list rejects it, and the empty
host does not match. -/
theorem is_ton_domain_spec_witness :
    Config.default_config.is_ton_domain "evilton" = true
    ∧ Config.default_config.is_ton_domain "" = false
    ∧ ({ Config.default_config with ton_domains := [] } : Config).is_ton_domain "evilton" = false :=
  ⟨by decide,
   (is_ton_domain_spec Config.default_config "evilton").2.2 (by decide),
   (is_ton_domain_spec Config.default_config "evilton").2.1⟩

/-- C3: the rewriter composes exactly
`trim_trailing_slash(gw) + "/" + host + path + ("?" + query when present)`,
is unchanged by extra trailing slashes on the gateway base, and ignores the
original scheme. -/
theorem rewrite_uri_spec (uri : Uri) (gw h : String) :
    (uri.host = some h →
      rewrite_uri_string uri gw =
        trim_end_slashes gw ++ "/" ++ h ++ uri.path ++
          (match uri.query with
           | some q => "?" ++ q
           | none => ""))
    ∧ rewrite_uri_string uri (gw ++ "/") = rewrite_uri_string uri gw
    ∧ (∀ sch, rewrite_uri_string { uri with scheme := sch } gw
        = rewrite_uri_string uri gw) := by
  refine ⟨?_, ?_, fun _ => rfl⟩
  · intro hh
    unfold rewrite_uri_string
    rw [hh]
    rfl
  · unfold rewrite_uri_string
    rw [trim_end_slashes_append_slash]

/-- C3 witness: the worked example from the specification — gateway base
"https://gateway.ton.org/", host "example.ton", path "/a", query "x=1". -/
theorem rewrite_uri_spec_witness :
    rewrite_uri_string
        { scheme := some "http", authority := none, host := some "example.ton"
        , path := "/a", query := some "x=1" } "https://gateway.ton.org/"
      = "https://gateway.ton.org/example.ton/a?x=1"
    ∧ rewrite_uri_string
        { scheme := some "http", authority := none, host := some "example.ton"
        , path := "/a", query := some "x=1" } "https://gateway.ton.org/"
      = trim_end_slashes "https://gateway.ton.org/" ++ "/" ++ "example.ton"
          ++ "/a" ++ "?x=1" :=
  ⟨by decide,
   (rewrite_uri_spec
      { scheme := some "http", authority := none, host := some "example.ton"
      , path := "/a", query := some "x=1" } "https://gateway.ton.org/"
      "example.ton").1 rfl⟩

/-- Helper: a relay loop stops reading once it sees the zero-byte read —
events after the first `eof` never affect the trace. -/
theorem relayDir_stop_after_eof (l post : List RelayEvent) (sd : Except String Unit) :
    relayDir (l ++ RelayEvent.eof :: post) sd = relayDir (l ++ [RelayEvent.eof]) sd := by
  induction l with
  | nil => rfl
  | cons e rest ih =>
    cases e with
    | chunk bs => simp [relayDir, ih]
    | writeFail bs er => rfl
    | readFail er => rfl
    | eof => rfl

/-- Helper: a clean relay run (only successful chunks, then EOF) delivers
exactly the chunks read, issues the half-close, and ends according to the
shutdown result. -/
theorem relayDir_clean (cs : List (List UInt8)) (sd : Except String Unit) :
    relayDir (cs.map RelayEvent.chunk ++ [RelayEvent.eof]) sd =
      { writes := cs, shutdownIssued := true
      , outcome := match sd with
                   | Except.ok _ => LoopOutcome.done
                   | Except.error e => LoopOutcome.fail e } := by
  induction cs with
  | nil => rfl
  | cons c rest ih => simp [relayDir, ih]

/-- Helper: the join of the two loops yields no session result while the
second loop is still pending. -/
theorem join_results_pending_right (o : LoopOutcome) :
    join_results o LoopOutcome.pending = none := by
  cases o <;> rfl

/-- Helper: once both loops have concluded, a failure of the first
(client→server) loop is the reported session error. -/
theorem join_results_fail_left (o : LoopOutcome) (e : String)
    (h : o ≠ LoopOutcome.pending) :
    join_results (LoopOutcome.fail e) o = some (Except.error e) := by
  cases o with
  | done => rfl
  | fail e2 => rfl
  | pending => exact absurd rfl h

/-- C4: a zero-byte read makes the relay loop stop reading (later events on
that side are ignored) and issue the half-close on the opposite side's
write end; the other direction's delivered bytes and half-close are exactly
those of its own loop (its read side is untouched); and the session result
stays absent until the other loop has also finished. -/
theorem tunnel_half_close (cs : List (List UInt8)) (post ev2 : List RelayEvent)
    (sd sd2 : Except String Unit) :
    relayDir (cs.map RelayEvent.chunk ++ RelayEvent.eof :: post) sd
      = relayDir (cs.map RelayEvent.chunk ++ [RelayEvent.eof]) sd
    ∧ (relayDir (cs.map RelayEvent.chunk ++ RelayEvent.eof :: post) sd).shutdownIssued = true
    ∧ (tunnel (Except.ok ()) (cs.map RelayEvent.chunk ++ RelayEvent.eof :: post) sd ev2 sd2).toClient
        = (relayDir ev2 sd2).writes
    ∧ (tunnel (Except.ok ()) (cs.map RelayEvent.chunk ++ RelayEvent.eof :: post) sd ev2 sd2).shutdownClientWrite
        = (relayDir ev2 sd2).shutdownIssued
    ∧ ((relayDir ev2 sd2).outcome = LoopOutcome.pending →
        (tunnel (Except.ok ()) (cs.map RelayEvent.chunk ++ RelayEvent.eof :: post) sd ev2 sd2).result = none) := by
  refine ⟨relayDir_stop_after_eof _ _ _, ?_, rfl, rfl, ?_⟩
  · rw [relayDir_stop_after_eof, relayDir_clean]
  · intro hp
    show join_results _ _ = none
    rw [hp]
    exact join_results_pending_right _

/-- C4 witness: a concrete session where the client side reads one chunk
then EOF (with junk events after it that are ignored) while the server side
is still pending: the half-close is issued and the session has no result
yet. -/
theorem tunnel_half_close_witness :
    (relayDir ([[(1:UInt8), 2]].map RelayEvent.chunk ++ RelayEvent.eof
        :: [RelayEvent.chunk [3]]) (Except.ok ())).shutdownIssued = true
    ∧ (tunnel (Except.ok ()) ([[(1:UInt8), 2]].map RelayEvent.chunk ++ RelayEvent.eof
        :: [RelayEvent.chunk [3]]) (Except.ok ()) [] (Except.ok ())).result = none :=
  ⟨(tunnel_half_close [[1, 2]] [RelayEvent.chunk [3]] [] (Except.ok ()) (Except.ok ())).2.1,
   (tunnel_half_close [[1, 2]] [RelayEvent.chunk [3]] [] (Except.ok ()) (Except.ok ())).2.2.2.2 rfl⟩

/-- C5 counterexample: when both relay directions fail — client→server with
"alpha", server→client with "beta" — the session reports only the
client→server error; the server→client error is discarded, not combined:
the reported message does not contain it. -/
theorem tunnel_error_not_combined_counterexample :
    (tunnel (Except.ok ()) [RelayEvent.readFail "alpha"] (Except.ok ())
        [RelayEvent.readFail "beta"] (Except.ok ())).result
      = some (Except.error "alpha")
    ∧ ¬ ("beta".data <:+: "alpha".data) := by
  exact ⟨rfl, by decide⟩

/-- C5 (amended): an I/O error in one relay direction does not cancel the
other direction — its delivered bytes and half-close are exactly those of
its own loop; the session-level failure is reported only once both sides
have concluded; and when both sides have concluded the reported failure is
the client→server direction's error alone (the server→client error, if
any, is discarded). -/
theorem tunnel_error_isolation (ev1 ev2 : List RelayEvent)
    (sd1 sd2 : Except String Unit) (e1 : String)
    (h1 : (relayDir ev1 sd1).outcome = LoopOutcome.fail e1) :
    (tunnel (Except.ok ()) ev1 sd1 ev2 sd2).toClient = (relayDir ev2 sd2).writes
    ∧ (tunnel (Except.ok ()) ev1 sd1 ev2 sd2).shutdownClientWrite
        = (relayDir ev2 sd2).shutdownIssued
    ∧ ((relayDir ev2 sd2).outcome = LoopOutcome.pending →
        (tunnel (Except.ok ()) ev1 sd1 ev2 sd2).result = none)
    ∧ ((relayDir ev2 sd2).outcome ≠ LoopOutcome.pending →
        (tunnel (Except.ok ()) ev1 sd1 ev2 sd2).result = some (Except.error e1)) := by
  refine ⟨rfl, rfl, ?_, ?_⟩
  · intro hp
    show join_results _ _ = none
    rw [hp]
    exact join_results_pending_right _
  · intro hnp
    show join_results _ _ = some (Except.error e1)
    rw [h1]
    exact join_results_fail_left _ e1 hnp

/-- C5 witness: client→server fails with "alpha" while server→client
half-closes cleanly; the clean side still delivers its (empty) traffic and
the session reports the failure only after both concluded. -/
theorem tunnel_error_isolation_witness :
    (tunnel (Except.ok ()) [RelayEvent.readFail "alpha"] (Except.ok ())
        [RelayEvent.eof] (Except.ok ())).toClient = []
    ∧ (tunnel (Except.ok ()) [RelayEvent.readFail "alpha"] (Except.ok ())
        [RelayEvent.eof] (Except.ok ())).result = some (Except.error "alpha") :=
  ⟨(tunnel_error_isolation [RelayEvent.readFail "alpha"] [RelayEvent.eof]
      (Except.ok ()) (Except.ok ()) "alpha" rfl).1,
   (tunnel_error_isolation [RelayEvent.readFail "alpha"] [RelayEvent.eof]
      (Except.ok ()) (Except.ok ()) "alpha" rfl).2.2.2 (by decide)⟩

/-- C6: a clean completed session delivers, in each direction
independently, exactly the chunks read, unmodified and in order; the
session concludes successfully; and when every read honours the fixed 8 KiB
buffer, so does every write. -/
theorem tunnel_preserves_bytes (c1 c2 : List (List UInt8))
    (h1 : ∀ bs ∈ c1, 0 < bs.length ∧ bs.length ≤ BUFFER_SIZE)
    (h2 : ∀ bs ∈ c2, 0 < bs.length ∧ bs.length ≤ BUFFER_SIZE) :
    (tunnel (Except.ok ()) (c1.map RelayEvent.chunk ++ [RelayEvent.eof]) (Except.ok ())
        (c2.map RelayEvent.chunk ++ [RelayEvent.eof]) (Except.ok ())).toServer = c1
    ∧ (tunnel (Except.ok ()) (c1.map RelayEvent.chunk ++ [RelayEvent.eof]) (Except.ok ())
        (c2.map RelayEvent.chunk ++ [RelayEvent.eof]) (Except.ok ())).toClient = c2
    ∧ (tunnel (Except.ok ()) (c1.map RelayEvent.chunk ++ [RelayEvent.eof]) (Except.ok ())
        (c2.map RelayEvent.chunk ++ [RelayEvent.eof]) (Except.ok ())).result
        = some (Except.ok ())
    ∧ (∀ bs ∈ (tunnel (Except.ok ()) (c1.map RelayEvent.chunk ++ [RelayEvent.eof]) (Except.ok ())
        (c2.map RelayEvent.chunk ++ [RelayEvent.eof]) (Except.ok ())).toServer,
          bs.length ≤ BUFFER_SIZE)
    ∧ (∀ bs ∈ (tunnel (Except.ok ()) (c1.map RelayEvent.chunk ++ [RelayEvent.eof]) (Except.ok ())
        (c2.map RelayEvent.chunk ++ [RelayEvent.eof]) (Except.ok ())).toClient,
          bs.length ≤ BUFFER_SIZE) := by
  have t1 := relayDir_clean c1 (Except.ok ())
  have t2 := relayDir_clean c2 (Except.ok ())
  refine ⟨?_, ?_, ?_, ?_, ?_⟩
  · show (relayDir _ _).writes = c1
    rw [t1]
  · show (relayDir _ _).writes = c2
    rw [t2]
  · show join_results (relayDir _ _).outcome (relayDir _ _).outcome = _
    rw [t1, t2]
    rfl
  · intro bs hbs
    have hw : (relayDir (c1.map RelayEvent.chunk ++ [RelayEvent.eof]) (Except.ok ())).writes = c1 := by rw [t1]
    rw [show (tunnel (Except.ok ()) (c1.map RelayEvent.chunk ++ [RelayEvent.eof]) (Except.ok ())
        (c2.map RelayEvent.chunk ++ [RelayEvent.eof]) (Except.ok ())).toServer
        = (relayDir (c1.map RelayEvent.chunk ++ [RelayEvent.eof]) (Except.ok ())).writes from rfl, hw] at hbs
    exact (h1 bs hbs).2
  · intro bs hbs
    have hw : (relayDir (c2.map RelayEvent.chunk ++ [RelayEvent.eof]) (Except.ok ())).writes = c2 := by rw [t2]
    rw [show (tunnel (Except.ok ()) (c1.map RelayEvent.chunk ++ [RelayEvent.eof]) (Except.ok ())
        (c2.map RelayEvent.chunk ++ [RelayEvent.eof]) (Except.ok ())).toClient
        = (relayDir (c2.map RelayEvent.chunk ++ [RelayEvent.eof]) (Except.ok ())).writes from rfl, hw] at hbs
    exact (h2 bs hbs).2

/-- C6 witness: a concrete clean session with chunks [1], [2,3] one way and
[4] the other: delivery is exact and the session ends cleanly. -/
theorem tunnel_preserves_bytes_witness :
    (tunnel (Except.ok ()) ([[(1:UInt8)], [2, 3]].map RelayEvent.chunk ++ [RelayEvent.eof])
        (Except.ok ()) ([[(4:UInt8)]].map RelayEvent.chunk ++ [RelayEvent.eof])
        (Except.ok ())).toServer = [[1], [2, 3]]
    ∧ (tunnel (Except.ok ()) ([[(1:UInt8)], [2, 3]].map RelayEvent.chunk ++ [RelayEvent.eof])
        (Except.ok ()) ([[(4:UInt8)]].map RelayEvent.chunk ++ [RelayEvent.eof])
        (Except.ok ())).toClient = [[4]]
    ∧ (tunnel (Except.ok ()) ([[(1:UInt8)], [2, 3]].map RelayEvent.chunk ++ [RelayEvent.eof])
        (Except.ok ()) ([[(4:UInt8)]].map RelayEvent.chunk ++ [RelayEvent.eof])
        (Except.ok ())).result = some (Except.ok ()) := by
  have h := tunnel_preserves_bytes [[1], [2, 3]] [[4]] (by decide) (by decide)
  exact ⟨h.1, h.2.1, h.2.2.1⟩

/-- C7: a request whose host does not match the classifier is handed to the
client collaborator unmodified (same URI, method, headers, body) and the
upstream response is returned unchanged; a matching request is handed to
the client with the gateway-composed URI in place of the original, method,
headers and body intact, and on success the upstream response is returned
unchanged. -/
theorem proxy_forwarding (cfg : Config) (parseUri : String → Option Uri)
    (client : HttpRequest → Except String HttpResponse) (req : HttpRequest) :
    (cfg.is_ton_domain (req.uri.host.getD "") = false →
      ∀ resp, client req = Except.ok resp →
        proxy_internal cfg parseUri client req = Except.ok (resp, req))
    ∧ (cfg.is_ton_domain (req.uri.host.getD "") = true →
      ∀ u, rewrite_ton_uri parseUri req.uri cfg.ton_gateway = Except.ok u →
        ∃ r sent, proxy_internal cfg parseUri client req = Except.ok (r, sent)
          ∧ sent.uri = u ∧ sent.method = req.method
          ∧ sent.headers = req.headers ∧ sent.body = req.body
          ∧ (∀ resp, client sent = Except.ok resp → r = resp)) := by
  constructor
  · intro hf resp hc
    simp [proxy_internal, hf, hc]
  · intro ht u hu
    cases hc : client { req with uri := u } with
    | ok resp =>
      refine ⟨resp, { req with uri := u }, ?_, rfl, rfl, rfl, rfl, ?_⟩
      · simp [proxy_internal, ht, hu, hc]
      · intro resp2 h2
        rw [hc] at h2
        exact (Except.ok.inj h2)
    | error e =>
      refine ⟨resp502 ("Failed to connect to TON gateway: " ++ e),
        { req with uri := u }, ?_, rfl, rfl, rfl, rfl, ?_⟩
      · simp [proxy_internal, ht, hu, hc]
      · intro resp2 h2
        rw [hc] at h2
        cases h2

/-- C7 witness: with the default suffix list, host "example.com" is
forwarded untouched and the mocked response comes back unchanged, while
host "foo.ton" reaches the client with the gateway-composed URI. -/
theorem proxy_forwarding_witness :
    proxy_internal Config.default_config parse_as_path clientA (reqFor "example.com")
      = Except.ok (respA, reqFor "example.com")
    ∧ (∃ r sent,
        proxy_internal Config.default_config parse_as_path clientA (reqFor "foo.ton")
          = Except.ok (r, sent)
        ∧ sent.uri = { scheme := none, authority := none, host := none
                     , path := "https://gateway.ton.org/foo.ton/p", query := none }
        ∧ sent.method = (reqFor "foo.ton").method
        ∧ sent.headers = (reqFor "foo.ton").headers
        ∧ sent.body = (reqFor "foo.ton").body
        ∧ (∀ resp, clientA sent = Except.ok resp → r = resp)) :=
  ⟨(proxy_forwarding Config.default_config parse_as_path clientA
      (reqFor "example.com")).1 (by decide) respA rfl,
   (proxy_forwarding Config.default_config parse_as_path clientA
      (reqFor "foo.ton")).2 (by decide)
      { scheme := none, authority := none, host := none
      , path := "https://gateway.ton.org/foo.ton/p", query := none } (by decide)⟩

/-- C8: when the host matches the classifier but the rewritten URI fails to
parse, the internal routing fails without invoking the client collaborator
at all (the outcome is the same for every client oracle), `proxy` turns the
failure into an immediate 502 whose body carries the rewrite error, and the
top-level handler still returns normally. -/
theorem rewrite_failure_502 (cfg : Config) (parseUri : String → Option Uri)
    (client : HttpRequest → Except String HttpResponse) (req : HttpRequest)
    (m : String) (hm : req.method = Method.other m)
    (ht : cfg.is_ton_domain (req.uri.host.getD "") = true)
    (hp : parseUri (rewrite_uri_string req.uri cfg.ton_gateway) = none) :
    (∀ client2 : HttpRequest → Except String HttpResponse,
      proxy_internal cfg parseUri client2 req
        = Except.error ("Failed to parse rewritten URI: "
            ++ rewrite_uri_string req.uri cfg.ton_gateway))
    ∧ proxy cfg parseUri client req
        = resp502 ("Proxy error: " ++ ("Failed to parse rewritten URI: "
            ++ rewrite_uri_string req.uri cfg.ton_gateway))
    ∧ handle_request cfg parseUri client req
        = Except.ok (resp502 ("Proxy error: " ++ ("Failed to parse rewritten URI: "
            ++ rewrite_uri_string req.uri cfg.ton_gateway))) := by
  have hint : ∀ client2 : HttpRequest → Except String HttpResponse,
      proxy_internal cfg parseUri client2 req
        = Except.error ("Failed to parse rewritten URI: "
            ++ rewrite_uri_string req.uri cfg.ton_gateway) := by
    intro client2
    simp [proxy_internal, ht, rewrite_ton_uri, hp]
  have hpr : proxy cfg parseUri client req
      = resp502 ("Proxy error: " ++ ("Failed to parse rewritten URI: "
          ++ rewrite_uri_string req.uri cfg.ton_gateway)) := by
    unfold proxy
    rw [hint client]
  refine ⟨hint, hpr, ?_⟩
  simp [handle_request, hm, hpr]

/-- C8 witness: host "foo.ton" with a parse oracle that rejects every
string — `proxy` answers an immediate 502 carrying the rewrite error. -/
theorem rewrite_failure_502_witness :
    proxy Config.default_config parse_none clientA (reqFor "foo.ton")
      = resp502 ("Proxy error: " ++ ("Failed to parse rewritten URI: "
          ++ rewrite_uri_string (reqFor "foo.ton").uri
              Config.default_config.ton_gateway)) :=
  (rewrite_failure_502 Config.default_config parse_none clientA
    (reqFor "foo.ton") "GET" rfl (by decide) rfl).2.1

/-- C10: a request whose URI carries no host is classified with the empty
string; when every configured suffix is non-empty it is never
gateway-routed: the outcome does not depend on the URI parse oracle (the
rewriter is never consulted) and the request is forwarded unmodified, its
upstream response returned unchanged. -/
theorem no_host_not_rewritten (cfg : Config) (parseUri : String → Option Uri)
    (client : HttpRequest → Except String HttpResponse) (req : HttpRequest)
    (hh : req.uri.host = none)
    (hs : ∀ s ∈ cfg.ton_domains, s ≠ "") :
    req.uri.host.getD "" = ""
    ∧ cfg.is_ton_domain (req.uri.host.getD "") = false
    ∧ (∀ parse2 : String → Option Uri,
        proxy_internal cfg parse2 client req = proxy_internal cfg parseUri client req)
    ∧ (∀ resp, client req = Except.ok resp →
        proxy_internal cfg parseUri client req = Except.ok (resp, req)) := by
  have hg : req.uri.host.getD "" = "" := by rw [hh]; rfl
  have hne : "" ∉ cfg.ton_domains := fun hmem => hs "" hmem rfl
  have hf : cfg.is_ton_domain (req.uri.host.getD "") = false := by
    rw [hg]
    exact is_ton_domain_empty_host cfg hne
  refine ⟨hg, hf, ?_, ?_⟩
  · intro parse2
    simp [proxy_internal, hf]
  · intro resp hc
    simp [proxy_internal, hf, hc]

/-- C10 witness: a GET request with no host under the default (non-empty)
suffix list is forwarded as-is and the mocked response returned. -/
theorem no_host_not_rewritten_witness :
    Config.default_config.is_ton_domain (reqNoHost.uri.host.getD "") = false
    ∧ proxy_internal Config.default_config parse_none clientA reqNoHost
        = Except.ok (respA, reqNoHost) :=
  ⟨(no_host_not_rewritten Config.default_config parse_none clientA reqNoHost
      rfl (by decide)).2.1,
   (no_host_not_rewritten Config.default_config parse_none clientA reqNoHost
      rfl (by decide)).2.2.2 respA rfl⟩

/-- C9: for every inbound request the top-level handler returns `Except.ok`
of a response (its error type `Empty` is uninhabited, mirroring
`Infallible`), and that response is either an upstream response relayed
verbatim, the CONNECT 200 with empty body, or a synthesized failure
response whose status is 502 and whose body textually contains the
underlying error description — no other custom status is ever produced by
the core. -/
theorem handle_request_responses (cfg : Config) (parseUri : String → Option Uri)
    (client : HttpRequest → Except String HttpResponse) (req : HttpRequest) :
    ∃ r, handle_request cfg parseUri client req = Except.ok r
      ∧ ((∃ q resp, client q = Except.ok resp ∧ r = resp)
         ∨ (r.status = 200 ∧ r.body = "")
         ∨ (r.status = 502 ∧ ∃ p e, r.body = p ++ e
             ∧ (e = "CONNECT request missing authority"
                ∨ (∃ q, client q = Except.error e)
                ∨ e = "Failed to parse rewritten URI: "
                      ++ rewrite_uri_string req.uri cfg.ton_gateway))) := by
  cases hm : req.method with
  | CONNECT =>
    cases ha : req.uri.authority with
    | none =>
      refine ⟨resp502 ("CONNECT error: " ++ "CONNECT request missing authority"), ?_, ?_⟩
      · simp [handle_request, hm, handle_connect, ha]
      · right; right
        exact ⟨rfl, "CONNECT error: ", "CONNECT request missing authority",
          rfl, Or.inl rfl⟩
    | some a =>
      refine ⟨{ status := 200, headers := [], body := "" }, ?_, ?_⟩
      · simp [handle_request, hm, handle_connect, ha]
      · right; left
        exact ⟨rfl, rfl⟩
  | other m =>
    refine ⟨proxy cfg parseUri client req, by simp [handle_request, hm], ?_⟩
    by_cases ht : cfg.is_ton_domain (req.uri.host.getD "") = true
    · cases hp : parseUri (rewrite_uri_string req.uri cfg.ton_gateway) with
      | none =>
        right; right
        have hpr : proxy cfg parseUri client req
            = resp502 ("Proxy error: " ++ ("Failed to parse rewritten URI: "
                ++ rewrite_uri_string req.uri cfg.ton_gateway)) := by
          simp [proxy, proxy_internal, ht, rewrite_ton_uri, hp]
        rw [hpr]
        exact ⟨rfl, "Proxy error: ",
          "Failed to parse rewritten URI: "
            ++ rewrite_uri_string req.uri cfg.ton_gateway,
          rfl, Or.inr (Or.inr rfl)⟩
      | some u =>
        cases hc : client { req with uri := u } with
        | ok resp =>
          left
          refine ⟨{ req with uri := u }, resp, hc, ?_⟩
          simp [proxy, proxy_internal, ht, rewrite_ton_uri, hp, hc]
        | error e =>
          right; right
          have hpr : proxy cfg parseUri client req
              = resp502 ("Failed to connect to TON gateway: " ++ e) := by
            simp [proxy, proxy_internal, ht, rewrite_ton_uri, hp, hc]
          rw [hpr]
          exact ⟨rfl, "Failed to connect to TON gateway: ", e, rfl,
            Or.inr (Or.inl ⟨{ req with uri := u }, hc⟩)⟩
    · have hf : cfg.is_ton_domain (req.uri.host.getD "") = false := by
        simpa using ht
      cases hc : client req with
      | ok resp =>
        left
        refine ⟨req, resp, hc, ?_⟩
        simp [proxy, proxy_internal, hf, hc]
      | error e =>
        right; right
        have hpr : proxy cfg parseUri client req
            = resp502 ("Failed to connect to target server: " ++ e) := by
          simp [proxy, proxy_internal, hf, hc]
        rw [hpr]
        exact ⟨rfl, "Failed to connect to target server: ", e, rfl,
          Or.inr (Or.inl ⟨req, hc⟩)⟩

/-- C1 counterexample: a CONNECT to an unreachable address does not yield a
502 — the handler builds and returns the 200 success response before the
detached task even attempts the dial, so the client receives status 200
although the dial fails with "connection refused". -/
theorem connect_dial_failure_counterexample :
    (connect_session reqConnectEx (Except.ok ()) (Except.error "connection refused")
        [] (Except.ok ()) [] (Except.ok ())).clientResponse.status = 200
    ∧ ¬ ((connect_session reqConnectEx (Except.ok ()) (Except.error "connection refused")
        [] (Except.ok ()) [] (Except.ok ())).clientResponse.status = 502) :=
  ⟨rfl, by decide⟩

/-- C1 (amended): a CONNECT request with no authority yields a 502 with a
plain-text body naming the error and no tunnel task; once an authority is
present the handler replies 200 with empty body before any dial is
attempted, so dial failure and upgrade failure in the detached task leave
that 200 in place and are only logged; on dial failure the detached task
ends in error without entering the Tunneling state (nothing is relayed and
no half-close is issued); and the top-level handler returns normally in
every case, its CONNECT response being exactly the session's client
response. -/
theorem connect_setup_spec (cfg : Config) (parseUri : String → Option Uri)
    (client : HttpRequest → Except String HttpResponse) (req : HttpRequest)
    (upg dial : Except String Unit)
    (ev1 : List RelayEvent) (sd1 : Except String Unit)
    (ev2 : List RelayEvent) (sd2 : Except String Unit) :
    (req.uri.authority = none →
      (connect_session req upg dial ev1 sd1 ev2 sd2).clientResponse
          = resp502 ("CONNECT error: " ++ "CONNECT request missing authority")
        ∧ (connect_session req upg dial ev1 sd1 ev2 sd2).tunnelRun = none)
    ∧ (∀ a, req.uri.authority = some a →
        (connect_session req upg dial ev1 sd1 ev2 sd2).clientResponse
          = { status := 200, headers := [], body := "" })
    ∧ (∀ a e, req.uri.authority = some a → dial = Except.error e →
        (connect_session req (Except.ok ()) dial ev1 sd1 ev2 sd2).tunnelRun
          = some { toServer := [], toClient := []
                 , shutdownServerWrite := false, shutdownClientWrite := false
                 , entered := false, result := some (Except.error e) })
    ∧ (req.method = Method.CONNECT →
        handle_request cfg parseUri client req
          = Except.ok (connect_session req upg dial ev1 sd1 ev2 sd2).clientResponse) := by
  refine ⟨?_, ?_, ?_, ?_⟩
  · intro ha
    constructor <;> simp [connect_session, handle_connect, ha]
  · intro a ha
    simp [connect_session, handle_connect, ha]
  · intro a e ha hd
    simp [connect_session, handle_connect, ha, tunnel, hd]
  · intro hm
    cases ha : req.uri.authority with
    | none => simp [handle_request, hm, connect_session, handle_connect, ha]
    | some a => simp [handle_request, hm, connect_session, handle_connect, ha]

/-- C1 witness: a CONNECT without authority gets the 502 with the error
text; a CONNECT to "127.0.0.1:1" whose dial fails still gets the plain 200,
its detached tunnel ending in error without relaying anything. -/
theorem connect_setup_spec_witness :
    (connect_session reqConnectNoAuth (Except.ok ()) (Except.ok ())
        [] (Except.ok ()) [] (Except.ok ())).clientResponse
      = resp502 ("CONNECT error: " ++ "CONNECT request missing authority")
    ∧ (connect_session reqConnectEx (Except.ok ()) (Except.error "dial failed")
        [] (Except.ok ()) [] (Except.ok ())).clientResponse
      = { status := 200, headers := [], body := "" }
    ∧ (connect_session reqConnectEx (Except.ok ()) (Except.error "dial failed")
        [] (Except.ok ()) [] (Except.ok ())).tunnelRun
      = some { toServer := [], toClient := []
             , shutdownServerWrite := false, shutdownClientWrite := false
             , entered := false, result := some (Except.error "dial failed") } :=
  ⟨((connect_setup_spec Config.default_config parse_none clientA reqConnectNoAuth
      (Except.ok ()) (Except.ok ()) [] (Except.ok ()) [] (Except.ok ())).1 rfl).1,
   (connect_setup_spec Config.default_config parse_none clientA reqConnectEx
      (Except.ok ()) (Except.error "dial failed") [] (Except.ok ()) [] (Except.ok ())).2.1
      "127.0.0.1:1" rfl,
   (connect_setup_spec Config.default_config parse_none clientA reqConnectEx
      (Except.ok ()) (Except.error "dial failed") [] (Except.ok ()) [] (Except.ok ())).2.2.1
      "127.0.0.1:1" "dial failed" rfl rfl⟩
